import Mathlib

/-!
Verification development for the orma photo-library metadata indexing and
query subsystem.

The TypeScript core is shallowly embedded:

* SQLite the repository talks to is modelled as a pure `DB` state (a list of
  rows plus an id counter and a `CURRENT_TIMESTAMP` clock).  The repository
  owns all SQL, so each statement it issues is embedded by its relational
  meaning on that state (`INSERT OR REPLACE` removes the row with the
  conflicting unique `path` and appends a fresh row; `SELECT ... ORDER BY
  dateTimeOriginal DESC` filters and sorts).
* ISO-8601 timestamp strings of the single format the code produces compare
  lexicographically exactly as the instants they denote, so timestamp TEXT
  columns are modelled by `Nat` values with the numeric order.
* JavaScript numbers in GPS triples are modelled by `ℚ`; `JSON.stringify` /
  `JSON.parse` of a numeric array is an exact round trip, modelled by the
  `GpsJson` tree.  The opaque `metadata` TEXT column stores
  `JSON.stringify(meta)`; since that serialization is injective on the
  modelled record, the model stores the `MetadataRecord` value itself, with
  `MetadataRecord.empty` standing for the text `"\x7b\x7d"`.
* Transcendental arithmetic of the Haversine computation is over `ℝ`.
-/

/-! ### GPS serialization (part_000 `parseGPSArray`, write path of `saveImage`) -/

/-- A parsed JSON value as it can appear in a GPS TEXT column: the write path
only ever stringifies a numeric array, so the tree is an array of numbers. -/
inductive GpsJson where
  | arr (elems : List ℚ)
  deriving DecidableEq

/-- The write path of `saveImage` runs `JSON.stringify(meta.GPSLatitude)`:
the triple becomes a three-element numeric array. -/
def serializeGPS (t : ℚ × ℚ × ℚ) : GpsJson :=
  .arr [t.1, t.2.1, t.2.2]

/-- part_000 `parseGPSArray`: `JSON.parse` the stored text and accept the
value only if it is an array of length 3; otherwise return `undefined`. -/
def parseGPSArray : Option GpsJson → Option (ℚ × ℚ × ℚ)
  | some (.arr [a, b, c]) => some (a, b, c)
  | _ => none

/-- part_000 `ImageRepository.gpsArrayToDecimal`:
`degrees + minutes / 60 + seconds / 3600`. -/
def gpsArrayToDecimal (gpsArray : ℚ × ℚ × ℚ) : ℚ :=
  gpsArray.1 + gpsArray.2.1 / 60 + gpsArray.2.2 / 3600

/-- The `toDecimal` helper of the map-rendering consumers (MapView / Places):
`arr[0] + (arr[1] ?? 0) / 60 + (arr[2] ?? 0) / 3600`, `undefined` input
giving `undefined`.  On a present triple every element is present, so the
`?? 0` fallbacks never fire. -/
def mapToDecimal : Option (ℚ × ℚ × ℚ) → Option ℚ
  | none => none
  | some (d, m, s) => some (d + m / 60 + s / 3600)

/-! ### Metadata records and files -/

/-- The extractor output consumed by `saveImage` (the fields the write path
reads, plus an open bag for the remaining recognized tags). -/
structure MetadataRecord where
  filename : Option String := none
  fileSize : Option Nat := none
  mimeType : Option String := none
  lastModified : Option Nat := none
  DateTimeOriginal : Option Nat := none
  GPSLatitude : Option (ℚ × ℚ × ℚ) := none
  GPSLongitude : Option (ℚ × ℚ × ℚ) := none
  GPSAltitude : Option ℚ := none
  extra : List (String × String) := []
  deriving DecidableEq

/-- The metadata value `\x7b\x7d` (the empty object) serializes to. -/
def MetadataRecord.empty : MetadataRecord := {}

/-- The facts `saveImage` reads off the `File` object. -/
structure FileInfo where
  name : String
  size : Nat
  type : String
  lastModified : Nat
  deriving DecidableEq

/-- The import.ts `ImageFileMetadata`.  `path` is an `Option` because a
malformed runtime record can carry `undefined` there, which the storage
layer rejects through the `NOT NULL` constraint on the `path` column;
`metadata` is `none` for extraction-failure entries (`metadata: null`). -/
structure ImageFileMetadata where
  file : FileInfo
  path : Option String
  metadata : Option MetadataRecord
  error : Option String := none
  deriving DecidableEq

/-! ### Database rows -/

/-- The raw row type `ImageRecordRaw` (part_000): one row of the `images` table.  In the store
every row has an `id` and both timestamp columns (they have defaults), so
those are total here; the nullable columns stay `Option`. -/
structure ImageRecordRaw where
  id : Nat
  path : String
  filename : String
  fileSize : Nat
  mimeType : String
  lastModified : Nat
  dateTimeOriginal : Option Nat
  gpsLatitude : Option GpsJson
  gpsLongitude : Option GpsJson
  gpsAltitude : Option ℚ
  metadata : MetadataRecord
  createdAt : Nat
  updatedAt : Nat
  deriving DecidableEq

/-- The public `ImageRecord` (part_000) with parsed fields. -/
structure ImageRecord where
  id : Nat
  path : String
  filename : String
  fileSize : Nat
  mimeType : String
  lastModified : Nat
  dateTimeOriginal : Option Nat
  gpsLatitude : Option (ℚ × ℚ × ℚ)
  gpsLongitude : Option (ℚ × ℚ × ℚ)
  gpsAltitude : Option ℚ
  metadata : MetadataRecord
  createdAt : Nat
  updatedAt : Nat
  deriving DecidableEq

/-- part_000 `ImageRepository.transformRecord`. -/
def transformRecord (raw : ImageRecordRaw) : ImageRecord :=
  { id := raw.id
    path := raw.path
    filename := raw.filename
    fileSize := raw.fileSize
    mimeType := raw.mimeType
    lastModified := raw.lastModified
    dateTimeOriginal := raw.dateTimeOriginal
    gpsLatitude := parseGPSArray raw.gpsLatitude
    gpsLongitude := parseGPSArray raw.gpsLongitude
    gpsAltitude := raw.gpsAltitude
    metadata := raw.metadata
    createdAt := raw.createdAt
    updatedAt := raw.updatedAt }

/-! ### The SQLite state -/

/-- The `images` table together with the autoincrement counter and the
engine clock read by `CURRENT_TIMESTAMP`. -/
structure DB where
  images : List ImageRecordRaw
  nextId : Nat
  now : Nat
  deriving DecidableEq

inductive StorageError where
  /-- A bound `NULL` hit a `NOT NULL` column with no default, aborting the
  statement. -/
  | notNullViolation
  deriving DecidableEq

inductive RepoError where
  | notInitialized
  | storage (e : StorageError)
  deriving DecidableEq

/-- JavaScript `a || b` on an optional string (empty string is falsy). -/
def jsOrString (o : Option String) (d : String) : String :=
  match o with
  | some s => if s.isEmpty then d else s
  | none => d

/-- JavaScript `a || b` on an optional number (`0` is falsy). -/
def jsOrNat (o : Option Nat) (d : Nat) : Nat :=
  match o with
  | some n => if n = 0 then d else n
  | none => d

/-- part_000 `saveImage`, lines 309-359, minus the initialization guard: the
`INSERT OR REPLACE` statement followed by the `SELECT id ... WHERE path = ?`
re-query.  `REPLACE` deletes any row with the conflicting unique `path` and
inserts a fresh row at the end of rowid order; `createdAt` is absent from the
column list, so it takes its `DEFAULT CURRENT_TIMESTAMP`, and `updatedAt` is
written as `CURRENT_TIMESTAMP` explicitly.  Binding `NULL` for `path` aborts
with the `NOT NULL` constraint error. -/
def dbSaveImage (imageData : ImageFileMetadata) (db : DB) :
    Except StorageError (Nat × DB) :=
  match imageData.path with
  | none => .error .notNullViolation
  | some p =>
    let meta := imageData.metadata.getD MetadataRecord.empty
    let row : ImageRecordRaw :=
      { id := db.nextId
        path := p
        filename := jsOrString meta.filename imageData.file.name
        fileSize := jsOrNat meta.fileSize imageData.file.size
        mimeType := jsOrString meta.mimeType imageData.file.type
        lastModified := meta.lastModified.getD imageData.file.lastModified
        dateTimeOriginal := some (meta.DateTimeOriginal.getD imageData.file.lastModified)
        gpsLatitude := meta.GPSLatitude.map serializeGPS
        gpsLongitude := meta.GPSLongitude.map serializeGPS
        gpsAltitude := meta.GPSAltitude
        metadata := meta
        createdAt := db.now
        updatedAt := db.now }
    .ok (db.nextId,
      { images := db.images.filter (fun r => r.path != p) ++ [row]
        nextId := db.nextId + 1
        now := db.now })

/-- The loop body of `saveImages`: upsert each record in order, stopping at
the first storage error. -/
def dbSaveImagesLoop : List ImageFileMetadata → DB → Except StorageError DB
  | [], db => .ok db
  | rec :: rest, db =>
    match dbSaveImage rec db with
    | .ok (_, db') => dbSaveImagesLoop rest db'
    | .error e => .error e

/-- The `ImageRepository` state: the `initialized` flag and the database. -/
structure Repo where
  initialized : Bool
  db : DB
  deriving DecidableEq

/-- part_000 `ImageRepository.saveImage` with its initialization guard. -/
def Repo.saveImage (r : Repo) (imageData : ImageFileMetadata) :
    Except RepoError (Nat × Repo) :=
  if r.initialized then
    match dbSaveImage imageData r.db with
    | .ok (i, db') => .ok (i, { r with db := db' })
    | .error e => .error (.storage e)
  else .error .notInitialized

/-- part_000 `ImageRepository.saveImages`: `BEGIN TRANSACTION`, the per-record
upsert loop, then `COMMIT`; on any failure `ROLLBACK` (restoring the state at
`BEGIN`) and rethrow the error.  Returns the outcome and the resulting
repository state. -/
def Repo.saveImages (r : Repo) (images : List ImageFileMetadata) :
    Except RepoError Unit × Repo :=
  if r.initialized then
    match dbSaveImagesLoop images r.db with
    | .ok db' => (.ok (), { r with db := db' })
    | .error e => (.error (.storage e), r)
  else (.error .notInitialized, r)

/-- part_000 `ImageRepository.getImages`: full-table fetch, returning `null`
(here `none`) when the table has zero rows. -/
def Repo.getImages (r : Repo) :
    Except RepoError (Option (List ImageRecord)) :=
  if r.initialized then
    let results := r.db.images
    .ok (if results.length > 0 then some (results.map transformRecord) else none)
  else .error .notInitialized

/-! ### The search pipeline (part_000 `searchImages`, lines 430-516) -/

/-- part_000 `ImageSearchQuery.nearLocation`. -/
structure NearLocation where
  latitude : ℚ
  longitude : ℚ
  radiusKm : Option ℚ := none
  deriving DecidableEq

/-- part_000 `ImageSearchQuery`. -/
structure ImageSearchQuery where
  path : Option String := none
  dateFrom : Option Nat := none
  dateTo : Option Nat := none
  hasGPS : Option Bool := none
  nearLocation : Option NearLocation := none
  limit : Option Nat := none
  offset : Option Nat := none
  deriving DecidableEq

/-- SQL `haystack LIKE '%needle%'`: contiguous-substring containment with
SQLite case folding (modelled by lowercasing both sides). -/
def likeContains (needle haystack : String) : Bool :=
  let n := needle.toLower.data
  let h := haystack.toLower.data
  (List.range (h.length + 1)).any (fun i => ((h.drop i).take n.length) == n)

/-- The `WHERE` clause assembled in `searchImages`: substring path match,
inclusive capture-date bounds (a `NULL` date compares to nothing), the
GPS-presence condition, and the non-null-GPS prefilter added for
`nearLocation`.  Conditions are pushed only for truthy query values, as in
the source. -/
def rowMatchesQuery (query : ImageSearchQuery) (r : ImageRecordRaw) : Bool :=
  (match query.path with
   | some s => if s.isEmpty then true else likeContains s r.path
   | none => true) &&
  (match query.dateFrom with
   | some d =>
     match r.dateTimeOriginal with
     | some t => decide (d ≤ t)
     | none => false
   | none => true) &&
  (match query.dateTo with
   | some d =>
     match r.dateTimeOriginal with
     | some t => decide (t ≤ d)
     | none => false
   | none => true) &&
  (match query.hasGPS with
   | some true => r.gpsLatitude.isSome && r.gpsLongitude.isSome
   | some false => r.gpsLatitude.isNone || r.gpsLongitude.isNone
   | none => true) &&
  (match query.nearLocation with
   | some _ => r.gpsLatitude.isSome && r.gpsLongitude.isSome
   | none => true)

/-- Sort key of `ORDER BY dateTimeOriginal DESC`: a `NULL` capture date
sorts after every value in descending order. -/
def dateRank (r : ImageRecordRaw) : WithBot ℕ :=
  match r.dateTimeOriginal with
  | some t => (t : WithBot ℕ)
  | none => ⊥

/-- Row `a` may precede row `b` in the descending output. -/
def descLe (a b : ImageRecordRaw) : Prop := dateRank b ≤ dateRank a

instance : DecidableRel descLe :=
  fun a b => inferInstanceAs (Decidable (dateRank b ≤ dateRank a))

instance : IsTotal ImageRecordRaw descLe :=
  ⟨fun a b => (le_total (dateRank b) (dateRank a)).imp id id⟩

instance : IsTrans ImageRecordRaw descLe :=
  ⟨fun _ _ _ hab hbc => le_trans hbc hab⟩

/-- Sort key on transformed records, for stating the ordering guarantee. -/
def recDateRank (r : ImageRecord) : WithBot ℕ :=
  match r.dateTimeOriginal with
  | some t => (t : WithBot ℕ)
  | none => ⊥

/-- Descending capture-date order on transformed records. -/
def recDescLe (a b : ImageRecord) : Prop := recDateRank b ≤ recDateRank a

/-- The SQL fetch of `searchImages`:
`SELECT * FROM images WHERE ... ORDER BY dateTimeOriginal DESC`. -/
def sqlFetchRows (query : ImageSearchQuery) (db : DB) : List ImageRecordRaw :=
  List.insertionSort descLe (db.images.filter (rowMatchesQuery query))

/-! ### Haversine distance (part_000 lines 469-487, part_003 `haversineKm`) -/

/-- part_000 `ImageRepository.toRadians`. -/
noncomputable def toRadians (degrees : ℝ) : ℝ := degrees * (Real.pi / 180)

open Classical in
/-- The standard two-argument arctangent `Math.atan2` on real arguments. -/
noncomputable def atan2 (y x : ℝ) : ℝ :=
  if 0 < x then Real.arctan (y / x)
  else if x < 0 ∧ 0 ≤ y then Real.arctan (y / x) + Real.pi
  else if x < 0 ∧ y < 0 then Real.arctan (y / x) - Real.pi
  else if x = 0 ∧ 0 < y then Real.pi / 2
  else if x = 0 ∧ y < 0 then -(Real.pi / 2)
  else 0

/-- The distance computed inside the `nearLocationFilter` closure of
`searchImages`: Haversine with Earth radius `R = 6371` km, query point
`(latitude, longitude)`, record point `(lat, lon)`. -/
noncomputable def repoDistanceKm (latitude longitude lat lon : ℝ) : ℝ :=
  let R : ℝ := 6371
  let dLat := toRadians (lat - latitude)
  let dLon := toRadians (lon - longitude)
  let a := Real.sin (dLat / 2) * Real.sin (dLat / 2) +
    Real.cos (toRadians latitude) * Real.cos (toRadians lat) *
    Real.sin (dLon / 2) * Real.sin (dLon / 2)
  let c := 2 * atan2 (Real.sqrt a) (Real.sqrt (1 - a))
  R * c

/-- part_003 `haversineKm` (with its inline `toRad d = d * PI / 180`). -/
noncomputable def haversineKm (lat1 lon1 lat2 lon2 : ℝ) : ℝ :=
  let R : ℝ := 6371
  let dLat := (lat2 - lat1) * Real.pi / 180
  let dLon := (lon2 - lon1) * Real.pi / 180
  let a := Real.sin (dLat / 2) ^ 2 +
    Real.cos (lat1 * Real.pi / 180) * Real.cos (lat2 * Real.pi / 180) *
      Real.sin (dLon / 2) ^ 2
  let c := 2 * atan2 (Real.sqrt a) (Real.sqrt (1 - a))
  R * c

/-- The boolean comparison `distance <= radiusKm`. -/
noncomputable def realLe (x y : ℝ) : Bool :=
  @decide (x ≤ y) (Classical.propDecidable _)

/-- The `nearLocationFilter` closure: decode both GPS triples to decimal
degrees (returning `false` if either is absent) and keep the record when the
Haversine distance to the query point is at most `radiusKm`. -/
noncomputable def nearFilter (latitude longitude radiusKm : ℚ) (record : ImageRecord) : Bool :=
  match record.gpsLatitude, record.gpsLongitude with
  | some la, some lo =>
      realLe
        (repoDistanceKm ((latitude : ℝ)) ((longitude : ℝ))
          ((gpsArrayToDecimal la : ℚ) : ℝ) ((gpsArrayToDecimal lo : ℚ) : ℝ))
        ((radiusKm : ℝ))
  | _, _ => false

/-- Post-fetch geospatial stage: applied only when the query carries a
`nearLocation`, with `radiusKm` defaulting to 10. -/
noncomputable def applyNearFilter : Option NearLocation → List ImageRecord → List ImageRecord
  | some loc, results =>
      results.filter (nearFilter loc.latitude loc.longitude (loc.radiusKm.getD 10))
  | none, results => results

/-- The offset stage `if (query.offset) results = results.slice(query.offset)`: the slice runs
only for a truthy (nonzero) offset. -/
def applyOffset (offset : Option Nat) (results : List ImageRecord) : List ImageRecord :=
  match offset with
  | some o => if o = 0 then results else results.drop o
  | none => results

/-- The limit stage `if (query.limit) results = results.slice(0, query.limit)`: the slice
runs only for a truthy (nonzero) limit. -/
def applyLimit (limit : Option Nat) (results : List ImageRecord) : List ImageRecord :=
  match limit with
  | some l => if l = 0 then results else results.take l
  | none => results

/-- The stage chain of `searchImages`: SQL fetch, transform, geospatial
filter, offset slice, limit slice. -/
noncomputable def searchBody (query : ImageSearchQuery) (db : DB) : List ImageRecord :=
  applyLimit query.limit (applyOffset query.offset
    (applyNearFilter query.nearLocation ((sqlFetchRows query db).map transformRecord)))

/-- part_000 `ImageRepository.searchImages` with its initialization guard. -/
noncomputable def Repo.searchImages (r : Repo) (query : ImageSearchQuery) :
    Except RepoError (List ImageRecord) :=
  if r.initialized then .ok (searchBody query r.db) else .error .notInitialized

/-! ### C6: GPS round trip and shared decimal conversion -/

/-- C6: for a GPS triple `[d, m, s]` with `d ∈ [-90, 90]`, `m ∈ [0, 60)`,
`s ∈ [0, 60)`, serializing on the write path of `saveImage` and parsing on
the read path (`parseGPSArray`) is the exact identity, and the decimal
conversion `d + m/60 + s/3600` is computed identically by the repository
(`gpsArrayToDecimal`, used for Haversine filtering) and by the
map-rendering consumers (`toDecimal` in MapView / Places). -/
theorem gps_roundtrip_and_decimal_agree (d m s : ℚ)
    (_hd1 : -90 ≤ d) (_hd2 : d ≤ 90) (_hm1 : 0 ≤ m) (_hm2 : m < 60)
    (_hs1 : 0 ≤ s) (_hs2 : s < 60) :
    parseGPSArray (some (serializeGPS (d, m, s))) = some (d, m, s) ∧
    mapToDecimal (some (d, m, s)) = some (gpsArrayToDecimal (d, m, s)) :=
  ⟨rfl, rfl⟩

/-- C6 witness: the round trip and conversion agreement at the concrete
triple `[10, 30, 15.5]`. -/
theorem gps_roundtrip_and_decimal_agree_witness :
    (-90 ≤ (10 : ℚ) ∧ (10 : ℚ) ≤ 90 ∧ (0 : ℚ) ≤ 30 ∧ (30 : ℚ) < 60 ∧
      (0 : ℚ) ≤ 31 / 2 ∧ (31 : ℚ) / 2 < 60) ∧
    parseGPSArray (some (serializeGPS (10, 30, 31 / 2))) = some (10, 30, 31 / 2) ∧
    mapToDecimal (some (10, 30, 31 / 2)) = some (gpsArrayToDecimal (10, 30, 31 / 2)) :=
  ⟨by norm_num,
    gps_roundtrip_and_decimal_agree 10 30 (31 / 2) (by norm_num) (by norm_num)
      (by norm_num) (by norm_num) (by norm_num) (by norm_num)⟩

/-! ### C5: null versus empty distinction of `getImages` -/

/-- The row a successful `saveImage` writes (the `dbRecord` of part_000
lines 317-333 plus the columns the statement fills in). -/
def savedRow (rec : ImageFileMetadata) (p : String) (db : DB) : ImageRecordRaw :=
  { id := db.nextId
    path := p
    filename := jsOrString (rec.metadata.getD MetadataRecord.empty).filename rec.file.name
    fileSize := jsOrNat (rec.metadata.getD MetadataRecord.empty).fileSize rec.file.size
    mimeType := jsOrString (rec.metadata.getD MetadataRecord.empty).mimeType rec.file.type
    lastModified := (rec.metadata.getD MetadataRecord.empty).lastModified.getD rec.file.lastModified
    dateTimeOriginal :=
      some ((rec.metadata.getD MetadataRecord.empty).DateTimeOriginal.getD rec.file.lastModified)
    gpsLatitude := (rec.metadata.getD MetadataRecord.empty).GPSLatitude.map serializeGPS
    gpsLongitude := (rec.metadata.getD MetadataRecord.empty).GPSLongitude.map serializeGPS
    gpsAltitude := (rec.metadata.getD MetadataRecord.empty).GPSAltitude
    metadata := rec.metadata.getD MetadataRecord.empty
    createdAt := db.now
    updatedAt := db.now }

/-- The database state after a successful `saveImage`. -/
def savedDB (rec : ImageFileMetadata) (p : String) (db : DB) : DB :=
  { images := db.images.filter (fun r => r.path != p) ++ [savedRow rec p db]
    nextId := db.nextId + 1
    now := db.now }

/-- Reduction of `dbSaveImage` on a record with a present path. -/
theorem dbSaveImage_some (rec : ImageFileMetadata) (db : DB) (p : String)
    (h : rec.path = some p) :
    dbSaveImage rec db = .ok (db.nextId, savedDB rec p db) := by
  unfold dbSaveImage
  rw [h]
  rfl

/-- C5: `getImages()` on an initialized repository with zero rows returns
`null` (not an empty list); after one successful `saveImage` it returns a
one-element list containing the saved record. -/
theorem getImages_null_then_singleton (db : DB) (rec : ImageFileMetadata) (p : String)
    (hempty : db.images = []) (hpath : rec.path = some p) :
    Repo.getImages ⟨true, db⟩ = .ok none ∧
    ∃ i r', Repo.saveImage ⟨true, db⟩ rec = .ok (i, r') ∧
      ∃ row, r'.db.images = [row] ∧
        Repo.getImages r' = .ok (some [transformRecord row]) := by
  refine ⟨?_, db.nextId, ⟨true, savedDB rec p db⟩, ?_, savedRow rec p db, ?_, ?_⟩
  · simp [Repo.getImages, hempty]
  · simp [Repo.saveImage, dbSaveImage_some rec db p hpath]
  · simp [savedDB, hempty]
  · simp [Repo.getImages, savedDB, hempty]

/-- C5 witness: the distinction at a concrete empty database and record. -/
theorem getImages_null_then_singleton_witness :
    (({ images := [], nextId := 1, now := 0 } : DB).images = [] ∧
      ({ file := ⟨"x.jpg", 100, "image/jpeg", 50⟩, path := some "x.jpg",
         metadata := none } : ImageFileMetadata).path = some "x.jpg") ∧
    Repo.getImages ⟨true, { images := [], nextId := 1, now := 0 }⟩ = .ok none ∧
    ∃ i r', Repo.saveImage ⟨true, { images := [], nextId := 1, now := 0 }⟩
        { file := ⟨"x.jpg", 100, "image/jpeg", 50⟩, path := some "x.jpg",
          metadata := none } = .ok (i, r') ∧
      ∃ row, r'.db.images = [row] ∧
        Repo.getImages r' = .ok (some [transformRecord row]) :=
  ⟨⟨rfl, rfl⟩, getImages_null_then_singleton { images := [], nextId := 1, now := 0 }
    { file := ⟨"x.jpg", 100, "image/jpeg", 50⟩, path := some "x.jpg", metadata := none }
    "x.jpg" rfl rfl⟩

/-! ### C10: saving a record with null metadata -/

/-- C10: a record whose `metadata` field is null succeeds in `saveImage`:
the stored row has the empty metadata object, file facts taken from the
`File` object, `dateTimeOriginal` equal to the file modify time, and all
three GPS columns `NULL`. -/
theorem saveImage_null_metadata (db : DB) (rec : ImageFileMetadata) (p : String)
    (hmeta : rec.metadata = none) (hpath : rec.path = some p) :
    ∃ r', Repo.saveImage ⟨true, db⟩ rec = .ok (db.nextId, r') ∧
      ∃ row, row ∈ r'.db.images ∧ row.path = p ∧
        row.metadata = MetadataRecord.empty ∧
        row.filename = rec.file.name ∧
        row.fileSize = rec.file.size ∧
        row.mimeType = rec.file.type ∧
        row.lastModified = rec.file.lastModified ∧
        row.dateTimeOriginal = some rec.file.lastModified ∧
        row.gpsLatitude = none ∧ row.gpsLongitude = none ∧ row.gpsAltitude = none := by
  refine ⟨⟨true, savedDB rec p db⟩, ?_, savedRow rec p db,
    List.mem_append_right _ (List.mem_singleton.mpr rfl), ?_⟩
  · simp [Repo.saveImage, dbSaveImage_some rec db p hpath]
  · simp [savedRow, hmeta, MetadataRecord.empty, jsOrString, jsOrNat]

/-- C10 witness: the null-metadata save at a concrete database and record. -/
theorem saveImage_null_metadata_witness :
    (({ file := ⟨"y.jpg", 7, "image/png", 3⟩, path := some "d/y.jpg",
        metadata := none } : ImageFileMetadata).metadata = none) ∧
    ∃ r', Repo.saveImage ⟨true, { images := [], nextId := 4, now := 9 }⟩
        { file := ⟨"y.jpg", 7, "image/png", 3⟩, path := some "d/y.jpg",
          metadata := none } = .ok (4, r') ∧
      ∃ row, row ∈ r'.db.images ∧ row.path = "d/y.jpg" ∧
        row.metadata = MetadataRecord.empty ∧
        row.filename = "y.jpg" ∧ row.fileSize = 7 ∧
        row.mimeType = "image/png" ∧ row.lastModified = 3 ∧
        row.dateTimeOriginal = some 3 ∧
        row.gpsLatitude = none ∧ row.gpsLongitude = none ∧ row.gpsAltitude = none :=
  ⟨rfl, saveImage_null_metadata { images := [], nextId := 4, now := 9 }
    { file := ⟨"y.jpg", 7, "image/png", 3⟩, path := some "d/y.jpg", metadata := none }
    "d/y.jpg" rfl rfl⟩

/-! ### C2: upsert keeps one row but resets `createdAt` -/

/-- File used in the C2 re-import scenario. -/
def fileC2 : FileInfo := ⟨"x.jpg", 100, "image/jpeg", 50⟩

/-- First-import metadata for the C2 scenario. -/
def metaC2a : MetadataRecord := { filename := some "x.jpg", extra := [("Make", "A")] }

/-- Different metadata for the C2 re-import. -/
def metaC2b : MetadataRecord := { filename := some "x.jpg", extra := [("Make", "B")] }

/-- First import record for path `a/x.jpg`. -/
def recC2a : ImageFileMetadata := ⟨fileC2, some "a/x.jpg", some metaC2a, none⟩

/-- Re-import record for the same path with different metadata. -/
def recC2b : ImageFileMetadata := ⟨fileC2, some "a/x.jpg", some metaC2b, none⟩

/-- C2: evaluating `saveImage` at the failing input.  Importing path
`a/x.jpg` at time 0 and re-importing it with different metadata at time 5
leaves exactly one row holding the latest metadata with `updatedAt = 5`
(strictly greater than the original 0), but `createdAt` is also 5: the
`INSERT OR REPLACE` deletes and re-inserts the row, so the
`DEFAULT CURRENT_TIMESTAMP` of the omitted `createdAt` column fires again
instead of preserving the first-insert time. -/
theorem saveImage_reimport_resets_createdAt :
    Repo.saveImage ⟨true, ⟨[], 1, 0⟩⟩ recC2a =
      .ok (1, ⟨true, savedDB recC2a "a/x.jpg" ⟨[], 1, 0⟩⟩) ∧
    (savedDB recC2a "a/x.jpg" ⟨[], 1, 0⟩).images.map ImageRecordRaw.createdAt = [0] ∧
    (savedDB recC2a "a/x.jpg" ⟨[], 1, 0⟩).images.map ImageRecordRaw.updatedAt = [0] ∧
    Repo.saveImage ⟨true, ⟨(savedDB recC2a "a/x.jpg" ⟨[], 1, 0⟩).images, 2, 5⟩⟩ recC2b =
      .ok (2, ⟨true, savedDB recC2b "a/x.jpg" ⟨(savedDB recC2a "a/x.jpg" ⟨[], 1, 0⟩).images, 2, 5⟩⟩) ∧
    (savedDB recC2b "a/x.jpg" ⟨(savedDB recC2a "a/x.jpg" ⟨[], 1, 0⟩).images, 2, 5⟩).images.map
      ImageRecordRaw.path = ["a/x.jpg"] ∧
    (savedDB recC2b "a/x.jpg" ⟨(savedDB recC2a "a/x.jpg" ⟨[], 1, 0⟩).images, 2, 5⟩).images.map
      ImageRecordRaw.metadata = [metaC2b] ∧
    (savedDB recC2b "a/x.jpg" ⟨(savedDB recC2a "a/x.jpg" ⟨[], 1, 0⟩).images, 2, 5⟩).images.map
      ImageRecordRaw.updatedAt = [5] ∧
    (savedDB recC2b "a/x.jpg" ⟨(savedDB recC2a "a/x.jpg" ⟨[], 1, 0⟩).images, 2, 5⟩).images.map
      ImageRecordRaw.createdAt = [5] := by
  refine ⟨rfl, by decide, by decide, rfl, by decide, by decide, by decide, by decide⟩

/-! ### C3: batch atomicity of `saveImages` -/

/-- A record in `images` with a `NULL` path makes the whole loop abort with
the storage error, from any starting state. -/
theorem dbSaveImagesLoop_fail (images : List ImageFileMetadata)
    (h : ∃ rec ∈ images, rec.path = none) :
    ∀ db, dbSaveImagesLoop images db = .error .notNullViolation := by
  induction images with
  | nil => simp at h
  | cons a rest ih =>
    intro db
    obtain ⟨rec, hmem, hnone⟩ := h
    rcases List.mem_cons.mp hmem with h1 | h1
    · subst h1
      simp only [dbSaveImagesLoop]
      unfold dbSaveImage
      rw [hnone]
    · simp only [dbSaveImagesLoop]
      cases hsave : dbSaveImage a db with
      | ok x => exact ih ⟨rec, h1, hnone⟩ x.2
      | error e => cases e; rfl

/-- Any path present in the table keeps a row after a further upsert. -/
theorem savedDB_mem_path (rec : ImageFileMetadata) (p : String) (db : DB) (q : String)
    (h : ∃ row ∈ db.images, row.path = q) :
    ∃ row ∈ (savedDB rec p db).images, row.path = q := by
  obtain ⟨row, hm, hp⟩ := h
  by_cases hq : q = p
  · exact ⟨savedRow rec p db,
      List.mem_append_right _ (List.mem_singleton.mpr rfl), hq ▸ rfl⟩
  · refine ⟨row, List.mem_append_left _ (List.mem_filter.mpr ⟨hm, ?_⟩), hp⟩
    simp [hp, hq]

/-- The upserted path has a row after the upsert. -/
theorem savedDB_adds_path (rec : ImageFileMetadata) (p : String) (db : DB) :
    ∃ row ∈ (savedDB rec p db).images, row.path = p :=
  ⟨savedRow rec p db, List.mem_append_right _ (List.mem_singleton.mpr rfl), rfl⟩

/-- If every record has a path, the loop succeeds, every record ends up with
a row for its path, and previously present paths keep a row. -/
theorem dbSaveImagesLoop_ok (images : List ImageFileMetadata) :
    ∀ db, (∀ rec ∈ images, rec.path.isSome) →
      ∃ db', dbSaveImagesLoop images db = .ok db' ∧
        (∀ rec ∈ images, ∀ p, rec.path = some p → ∃ row ∈ db'.images, row.path = p) ∧
        (∀ q, (∃ row ∈ db.images, row.path = q) → ∃ row ∈ db'.images, row.path = q) := by
  induction images with
  | nil =>
    intro db _
    exact ⟨db, rfl, by simp, fun q hq => hq⟩
  | cons a rest ih =>
    intro db h
    obtain ⟨p, hp⟩ := Option.isSome_iff_exists.mp (h a (List.mem_cons_self a rest))
    obtain ⟨db', hloop, hall, hpres⟩ :=
      ih (savedDB a p db) (fun r hr => h r (List.mem_cons_of_mem _ hr))
    refine ⟨db', ?_, ?_, ?_⟩
    · simp only [dbSaveImagesLoop, dbSaveImage_some a db p hp]
      exact hloop
    · intro rec hmem q hq
      rcases List.mem_cons.mp hmem with h1 | h1
      · have hqp : q = p := by
          rw [h1, hp] at hq
          exact (Option.some.inj hq).symm
        rw [hqp]
        exact hpres p (savedDB_adds_path a p db)
      · exact hall rec h1 q hq
    · intro q hq
      exact hpres q (savedDB_mem_path a p db q hq)

/-- C3: `saveImages` is one transaction.  If any record in the batch fails
its save, the whole call returns the storage error and the repository state
is exactly the state at `BEGIN` (zero rows from the call persist, rows
present before are untouched); if no record fails, the loop commits and
every record in the batch has a persisted row for its path. -/
theorem saveImages_batch_atomicity (r : Repo) (images : List ImageFileMetadata)
    (hinit : r.initialized = true) :
    ((∃ rec ∈ images, rec.path = none) →
      Repo.saveImages r images = (.error (.storage .notNullViolation), r)) ∧
    ((∀ rec ∈ images, rec.path.isSome) →
      ∃ db', dbSaveImagesLoop images r.db = .ok db' ∧
        Repo.saveImages r images = (.ok (), { r with db := db' }) ∧
        ∀ rec ∈ images, ∀ p, rec.path = some p → ∃ row ∈ db'.images, row.path = p) := by
  constructor
  · intro h
    simp [Repo.saveImages, hinit, dbSaveImagesLoop_fail images h r.db]
  · intro h
    obtain ⟨db', h1, h2, _⟩ := dbSaveImagesLoop_ok images r.db h
    exact ⟨db', h1, by simp [Repo.saveImages, hinit, h1], h2⟩

/-- A well-formed record for the C3 witness batch. -/
def recC3good : ImageFileMetadata := ⟨⟨"g.jpg", 1, "image/jpeg", 2⟩, some "g.jpg", none, none⟩

/-- A malformed record (NULL path) for the C3 witness batch. -/
def recC3bad : ImageFileMetadata := ⟨⟨"b.jpg", 1, "image/jpeg", 2⟩, none, none, none⟩

/-- C3 witness: a concrete batch with a malformed record rolls back to the
initial state with the storage error, and a concrete all-good batch
commits. -/
theorem saveImages_batch_atomicity_witness :
    Repo.saveImages ⟨true, ⟨[], 1, 0⟩⟩ [recC3good, recC3bad] =
      (.error (.storage .notNullViolation), ⟨true, ⟨[], 1, 0⟩⟩) ∧
    ∃ db', dbSaveImagesLoop [recC3good] (⟨[], 1, 0⟩ : DB) = .ok db' ∧
      Repo.saveImages ⟨true, ⟨[], 1, 0⟩⟩ [recC3good] = (.ok (), ⟨true, db'⟩) ∧
      ∀ rec ∈ [recC3good], ∀ p, rec.path = some p → ∃ row ∈ db'.images, row.path = p :=
  ⟨(saveImages_batch_atomicity ⟨true, ⟨[], 1, 0⟩⟩ [recC3good, recC3bad] rfl).1
      ⟨recC3bad, by decide, rfl⟩,
    (saveImages_batch_atomicity ⟨true, ⟨[], 1, 0⟩⟩ [recC3good] rfl).2
      (by intro rec h; rw [List.mem_singleton.mp h]; rfl)⟩

/-! ### C8: lifecycle of the `SQLiteWorker` adapter (part_000 lines 53-152) -/

/-- The observable adapter state: the `initialized` flag and whether
`worker.terminate()` has run. -/
structure SQLiteWorkerState where
  initialized : Bool
  terminated : Bool
  deriving DecidableEq

/-- How a call on the adapter settles. -/
inductive CallOutcome where
  /-- The returned promise resolves. -/
  | ok
  /-- The call throws the `Database not initialized` error. -/
  | errNotInitialized
  /-- The returned promise never settles: `postMessage` to a terminated
  worker is dropped, so no response ever arrives for the pending id. -/
  | pending
  deriving DecidableEq

/-- The `sendMessage` round trip: a live worker answers, a terminated one never does. -/
def sendOutcome (s : SQLiteWorkerState) : CallOutcome :=
  if s.terminated then .pending else .ok

/-- The `init()` call: a no-op when already initialized, otherwise round-trips an
`init` message and sets the flag. -/
def workerInit (s : SQLiteWorkerState) : CallOutcome × SQLiteWorkerState :=
  if s.initialized then (.ok, s)
  else if s.terminated then (.pending, s)
  else (.ok, { s with initialized := true })

/-- The `exec(sql)` call: throws when not initialized, otherwise round-trips. -/
def workerExec (s : SQLiteWorkerState) : CallOutcome × SQLiteWorkerState :=
  if !s.initialized then (.errNotInitialized, s) else (sendOutcome s, s)

/-- The `query(sql)` call: throws when not initialized, otherwise round-trips. -/
def workerQuery (s : SQLiteWorkerState) : CallOutcome × SQLiteWorkerState :=
  if !s.initialized then (.errNotInitialized, s) else (sendOutcome s, s)

/-- The `export()` call: throws when not initialized, otherwise round-trips. -/
def workerExport (s : SQLiteWorkerState) : CallOutcome × SQLiteWorkerState :=
  if !s.initialized then (.errNotInitialized, s) else (sendOutcome s, s)

/-- The `close()` call: when initialized, awaits a `close` round-trip (which never
settles if the worker is already dead), clears the flag and terminates the
worker; when not initialized it skips the round-trip and still terminates,
resolving successfully. -/
def workerClose (s : SQLiteWorkerState) : CallOutcome × SQLiteWorkerState :=
  if s.initialized then
    if s.terminated then (.pending, s)
    else (.ok, { initialized := false, terminated := true })
  else (.ok, { s with terminated := true })

/-- C8 counterexample: from a live initialized adapter, `close()` resolves,
and on the resulting state a second `close()` also resolves (it does not
fail with `NotInitialized`) and `init()` never settles (it does not fail
with `NotInitialized` either), refuting the claim that every call after
`close()` fails with `NotInitialized`. -/
theorem workerClose_not_terminal_counterexample :
    workerClose ⟨true, false⟩ = (.ok, ⟨false, true⟩) ∧
    (workerClose ⟨false, true⟩).1 = .ok ∧
    (workerClose ⟨false, true⟩).1 ≠ .errNotInitialized ∧
    (workerInit ⟨false, true⟩).1 = .pending ∧
    (workerInit ⟨false, true⟩).1 ≠ .errNotInitialized := by
  decide

/-- C8 amended: after `close()` completes on a live initialized adapter,
`exec`, `query` and `export` fail with `NotInitialized`, but `init()`
re-sends to the terminated worker and never settles, and a further
`close()` resolves successfully as a no-op. -/
theorem workerClose_terminal_behavior :
    workerClose ⟨true, false⟩ = (.ok, ⟨false, true⟩) ∧
    (workerExec ⟨false, true⟩).1 = .errNotInitialized ∧
    (workerQuery ⟨false, true⟩).1 = .errNotInitialized ∧
    (workerExport ⟨false, true⟩).1 = .errNotInitialized ∧
    (workerInit ⟨false, true⟩).1 = .pending ∧
    (workerClose ⟨false, true⟩).1 = .ok ∧
    (workerClose ⟨false, true⟩).2 = ⟨false, true⟩ := by
  decide

/-! ### C7: parallel import completeness (import.ts `importImagesWithWorkers`,
part_003 import worker) -/

/-- The batching loop of import.ts step 3:
`for (let i = 0; i < allFiles.length; i += BATCH_SIZE) batches.push(allFiles.slice(i, i + BATCH_SIZE))`,
written with a fuel argument bounding the number of iterations. -/
def createBatchesAux (bs : Nat) : Nat → List String → List (List String)
  | 0, _ => []
  | _, [] => []
  | fuel + 1, l => l.take bs :: createBatchesAux bs fuel (l.drop bs)

/-- The batch list of one import invocation. -/
def createBatches (bs : Nat) (allFiles : List String) : List (List String) :=
  createBatchesAux bs allFiles.length allFiles

/-- Batching loses and duplicates nothing: the batches concatenate back to
the file list (for a positive batch size, as in the source where it is 15). -/
theorem createBatchesAux_flatten (bs : Nat) (hbs : 0 < bs) :
    ∀ fuel l, l.length ≤ fuel → (createBatchesAux bs fuel l).flatten = l := by
  intro fuel
  induction fuel with
  | zero =>
    intro l hl
    rw [List.eq_nil_of_length_eq_zero (Nat.le_zero.mp hl)]
    rfl
  | succ n ih =>
    intro l hl
    cases l with
    | nil => rfl
    | cons x xs =>
      simp only [createBatchesAux, List.flatten_cons]
      rw [ih]
      · exact List.take_append_drop bs (x :: xs)
      · simp only [List.length_drop, List.length_cons] at hl ⊢
        omega

/-- The `createBatches` version of the concatenation identity. -/
theorem createBatches_flatten (bs : Nat) (hbs : 0 < bs) (l : List String) :
    (createBatches bs l).flatten = l :=
  createBatchesAux_flatten bs hbs l.length l le_rfl

/-- One entry of a worker `batch-complete` response (part_003). -/
structure BatchResultEntry where
  path : String
  metadata : Option MetadataRecord
  error : Option String
  deriving DecidableEq

/-- The per-path body of the worker `process-batch` loop (part_003 lines
68-93): a missing `File` records a `File not found` failure entry, a failed
extraction records the error message, a successful extraction records the
metadata — always exactly one entry for the path. -/
def processOne (extractOracle : FileInfo → Except String MetadataRecord)
    (fileMap : String → Option FileInfo) (path : String) : BatchResultEntry :=
  match fileMap path with
  | none => ⟨path, none, some "File not found"⟩
  | some file =>
    match extractOracle file with
    | .ok m => ⟨path, some m, none⟩
    | .error e => ⟨path, none, some e⟩

/-- The worker `process-batch` handler over one batch. -/
def processBatch (extractOracle : FileInfo → Except String MetadataRecord)
    (fileMap : String → Option FileInfo) (batch : List String) : List BatchResultEntry :=
  batch.map (processOne extractOracle fileMap)

/-- Every entry keeps the path it was produced for. -/
theorem processOne_path (extractOracle : FileInfo → Except String MetadataRecord)
    (fileMap : String → Option FileInfo) (p : String) :
    (processOne extractOracle fileMap p).path = p := by
  unfold processOne
  rcases h1 : fileMap p with _ | f
  · rfl
  · rcases h2 : extractOracle f with m | e <;> simp [h2]

/-- The main-thread merge of one worker result entry with the File map
(import.ts lines 157-169); a missing file becomes the placeholder
`new File([], result.path)`. -/
def mergeEntry (fileMap : String → Option FileInfo) (r : BatchResultEntry) :
    ImageFileMetadata :=
  { file := (fileMap r.path).getD ⟨r.path, 0, "", 0⟩
    path := some r.path
    metadata := r.metadata
    error := r.error }

/-- The dynamic work queue of import.ts: each round a worker reads
`batches[batchIndex++]`; the read and increment happen in one synchronous
step of the single-threaded main context, so for any interleaving `ws` of
worker turns the claimed indices advance one at a time.  Returns the
(worker, batch index) claim pairs. -/
def claimBatches (n : Nat) : Nat → List Nat → List (Nat × Nat)
  | _, [] => []
  | c, w :: ws => if c < n then (w, c) :: claimBatches n (c + 1) ws else claimBatches n c ws

/-- The claimed indices from counter `c` are exactly the consecutive range
bounded by the batch count and the number of worker turns. -/
theorem claimBatches_snd (n : Nat) :
    ∀ ws c, (claimBatches n c ws).map Prod.snd = List.range' c (min (n - c) ws.length) := by
  intro ws
  induction ws with
  | nil => intro c; simp [claimBatches]
  | cons w ws ih =>
    intro c
    by_cases h : c < n
    · simp only [claimBatches, if_pos h, List.map_cons, ih, List.length_cons]
      have h1 : min (n - c) (ws.length + 1) = min (n - (c + 1)) ws.length + 1 := by omega
      rw [h1, List.range'_succ c _ 1]
    · simp only [claimBatches, if_neg h, ih, List.length_cons]
      have h0 : n - c = 0 := by omega
      simp [h0]

/-- The merged result paths over any batch completion order are the batch
paths. -/
theorem mergedResults_paths (extractOracle : FileInfo → Except String MetadataRecord)
    (fileMap : String → Option FileInfo) (order : List (List String)) :
    (((order.map (processBatch extractOracle fileMap)).flatten.map
        (mergeEntry fileMap)).map ImageFileMetadata.path) = order.flatten.map some := by
  induction order with
  | nil => rfl
  | cons b rest ih =>
    simp only [List.map_cons, List.flatten_cons, List.map_append]
    rw [ih]
    congr 1
    rw [processBatch, List.map_map, List.map_map]
    exact List.map_congr_left fun q _ => by
      show some (processOne extractOracle fileMap q).path = some q
      rw [processOne_path]

/-- C7: importing `paths` through the parallel path yields exactly one
result entry per enumerated path — successes plus recorded failures, no
duplicates, no omissions — for every batch size, extraction outcome, and
batch completion order, and the shared-counter work queue hands each batch
index to exactly one worker turn. -/
theorem importImagesWithWorkers_complete (bs : Nat) (paths : List String)
    (extractOracle : FileInfo → Except String MetadataRecord)
    (fileMap : String → Option FileInfo)
    (order : List (List String)) (sched : List Nat)
    (hbs : 0 < bs)
    (horder : (createBatches bs paths).Perm order)
    (hsched : (createBatches bs paths).length ≤ sched.length) :
    ((order.map (processBatch extractOracle fileMap)).flatten.map
        (mergeEntry fileMap)).length = paths.length ∧
    ((((order.map (processBatch extractOracle fileMap)).flatten.map
        (mergeEntry fileMap)).map ImageFileMetadata.path).Perm (paths.map some)) ∧
    (paths.Nodup →
      (((order.map (processBatch extractOracle fileMap)).flatten.map
        (mergeEntry fileMap)).map ImageFileMetadata.path).Nodup) ∧
    (claimBatches (createBatches bs paths).length 0 sched).map Prod.snd
        = List.range (createBatches bs paths).length := by
  have hflat : order.flatten.Perm paths := by
    have h := horder.flatten
    rw [createBatches_flatten bs hbs paths] at h
    exact h.symm
  have hperm : (((order.map (processBatch extractOracle fileMap)).flatten.map
      (mergeEntry fileMap)).map ImageFileMetadata.path).Perm (paths.map some) := by
    rw [mergedResults_paths]
    exact hflat.map some
  refine ⟨?_, hperm, ?_, ?_⟩
  · have h1 := hperm.length_eq
    simp only [List.length_map] at h1 ⊢
    exact h1
  · intro hnd
    exact hperm.nodup_iff.mpr (hnd.map (Option.some_injective _))
  · rw [claimBatches_snd]
    rw [Nat.sub_zero, min_eq_left hsched]
    exact (List.range_eq_range' _).symm

/-- C7 witness: a concrete three-file import with batch size 2, one failing
extraction, one missing file, and a completion order that reverses the
dispatch order still yields exactly one entry per path, and the queue hands
out each batch index once. -/
theorem importImagesWithWorkers_complete_witness :
    (0 < 2 ∧
      (createBatches 2 ["a", "b", "c"]).Perm [["c"], ["a", "b"]] ∧
      (createBatches 2 ["a", "b", "c"]).length ≤ ([0, 1, 0] : List Nat).length) ∧
    (([["c"], ["a", "b"]].map (processBatch
        (fun f => if f.name == "a" then .error "boom" else .ok {})
        (fun p => if p == "c" then none else some ⟨p, 1, "image/jpeg", 0⟩))).flatten.map
      (mergeEntry (fun p => if p == "c" then none else some ⟨p, 1, "image/jpeg", 0⟩))).length
      = (["a", "b", "c"] : List String).length ∧
    ((([["c"], ["a", "b"]].map (processBatch
        (fun f => if f.name == "a" then .error "boom" else .ok {})
        (fun p => if p == "c" then none else some ⟨p, 1, "image/jpeg", 0⟩))).flatten.map
      (mergeEntry (fun p => if p == "c" then none else some ⟨p, 1, "image/jpeg", 0⟩))).map
        ImageFileMetadata.path).Perm ((["a", "b", "c"] : List String).map some) ∧
    (claimBatches (createBatches 2 ["a", "b", "c"]).length 0 [0, 1, 0]).map Prod.snd
      = List.range (createBatches 2 ["a", "b", "c"]).length := by
  refine ⟨⟨by decide, by decide, by decide⟩, ?_⟩
  have h := importImagesWithWorkers_complete 2 ["a", "b", "c"]
    (fun f => if f.name == "a" then .error "boom" else .ok {})
    (fun p => if p == "c" then none else some ⟨p, 1, "image/jpeg", 0⟩)
    [["c"], ["a", "b"]] [0, 1, 0] (by decide) (by decide) (by decide)
  exact ⟨h.1, h.2.1, h.2.2.2⟩

/-! ### C9: zero limit and offset are falsy, so pagination is skipped -/

/-- C9: `searchImages` slices only for truthy pagination values: `limit = 0`
returns the entire filtered, transformed, ordered list exactly as if
`limit` were omitted, and `offset = 0` behaves exactly as an omitted
`offset`. -/
theorem searchImages_zero_pagination_falsy (r : Repo) (q : ImageSearchQuery) :
    Repo.searchImages r { q with limit := some 0 } =
      Repo.searchImages r { q with limit := none } ∧
    Repo.searchImages r { q with offset := some 0 } =
      Repo.searchImages r { q with offset := none } :=
  ⟨rfl, rfl⟩

/-! ### C1: ordering and pagination of `searchImages` -/

/-- C1: `searchImages` runs SQL fetch → transform → geospatial filter →
`slice(offset)` → `slice(0, limit)`, so with `offset = 2, limit = 3` it
returns exactly the 3rd through 5th items of the full filtered-and-sorted
list produced by the same query without pagination, and every result list
is sorted by `dateTimeOriginal` descending. -/
theorem searchImages_pagination_after_filter (db : DB) (q : ImageSearchQuery) :
    Repo.searchImages ⟨true, db⟩ { q with offset := some 2, limit := some 3 } =
      .ok (((searchBody { q with offset := none, limit := none } db).drop 2).take 3) ∧
    List.Sorted recDescLe (searchBody q db) := by
  constructor
  · rfl
  · have hraw : List.Sorted descLe (sqlFetchRows q db) :=
      List.sorted_insertionSort descLe (db.images.filter (rowMatchesQuery q))
    have hmap : List.Sorted recDescLe ((sqlFetchRows q db).map transformRecord) :=
      hraw.map transformRecord (fun _ _ h => h)
    have hfil : List.Sorted recDescLe
        (applyNearFilter q.nearLocation ((sqlFetchRows q db).map transformRecord)) := by
      cases q.nearLocation with
      | none => exact hmap
      | some loc => exact hmap.filter _
    have hoff : List.Sorted recDescLe (applyOffset q.offset
        (applyNearFilter q.nearLocation ((sqlFetchRows q db).map transformRecord))) := by
      cases q.offset with
      | none => exact hfil
      | some o =>
        by_cases h0 : o = 0
        · simpa [applyOffset, h0] using hfil
        · simpa only [applyOffset, if_neg h0] using hfil.sublist (List.drop_sublist o _)
    show List.Sorted recDescLe (applyLimit q.limit _)
    cases q.limit with
    | none => exact hoff
    | some l =>
      by_cases h0 : l = 0
      · simpa [applyLimit, h0] using hoff
      · simpa only [applyLimit, if_neg h0] using hoff.sublist (List.take_sublist l _)

/-! ### C4: correctness of the geospatial radius filter -/

/-- The boolean radius test holds exactly for the real inequality. -/
theorem realLe_iff (x y : ℝ) : realLe x y = true ↔ x ≤ y := by
  simp [realLe]

/-- The distance computed inline by the repository filter is the
`haversineKm` of the geo utilities: both implement the same Haversine
formula with Earth radius 6371 km. -/
theorem repoDistanceKm_eq_haversineKm (lat1 lon1 lat2 lon2 : ℝ) :
    repoDistanceKm lat1 lon1 lat2 lon2 = haversineKm lat1 lon1 lat2 lon2 := by
  simp only [repoDistanceKm, haversineKm, toRadians]
  ring_nf

/-- The value of `Math.atan2(0, 1)` is 0. -/
theorem atan2_zero_one : atan2 0 1 = 0 := by
  unfold atan2
  rw [if_pos one_pos]
  simp

/-- The Haversine distance from a point to itself is zero. -/
theorem haversineKm_same_point (lat lon : ℝ) : haversineKm lat lon lat lon = 0 := by
  simp only [haversineKm]
  simp [sub_self, atan2_zero_one]

/-- The repository `nearLocationFilter` keeps a record exactly when both GPS
triples decode and their decimal point is within the Haversine radius of the
query point. -/
theorem nearFilter_eq_true_iff (latitude longitude radiusKm : ℚ) (record : ImageRecord) :
    nearFilter latitude longitude radiusKm record = true ↔
      ∃ la lo, record.gpsLatitude = some la ∧ record.gpsLongitude = some lo ∧
        haversineKm ((latitude : ℚ) : ℝ) ((longitude : ℚ) : ℝ)
          ((gpsArrayToDecimal la : ℚ) : ℝ) ((gpsArrayToDecimal lo : ℚ) : ℝ)
          ≤ ((radiusKm : ℚ) : ℝ) := by
  unfold nearFilter
  rcases hla : record.gpsLatitude with _ | la
  · simp [hla]
  · rcases hlo : record.gpsLongitude with _ | lo
    · simp [hlo]
    · simp only [hla, hlo]
      rw [realLe_iff, repoDistanceKm_eq_haversineKm]
      constructor
      · intro h
        exact ⟨la, lo, rfl, rfl, h⟩
      · rintro ⟨la', lo', h1, h2, h⟩
        rw [Option.some.inj h1, Option.some.inj h2]
        exact h

/-- Membership survives the limit slice backwards. -/
theorem mem_applyLimit {x : ImageRecord} {lim : Option Nat} {l : List ImageRecord}
    (h : x ∈ applyLimit lim l) : x ∈ l := by
  cases lim with
  | none => exact h
  | some n =>
    by_cases h0 : n = 0
    · simpa [applyLimit, h0] using h
    · exact List.take_subset n l (by simpa only [applyLimit, if_neg h0] using h)

/-- Membership survives the offset slice backwards. -/
theorem mem_applyOffset {x : ImageRecord} {off : Option Nat} {l : List ImageRecord}
    (h : x ∈ applyOffset off l) : x ∈ l := by
  cases off with
  | none => exact h
  | some n =>
    by_cases h0 : n = 0
    · simpa [applyOffset, h0] using h
    · exact List.drop_subset n l (by simpa only [applyOffset, if_neg h0] using h)

/-- C4 (amended): for a `nearLocation` query, every returned record has both
GPS triples decoded and its Haversine distance (Earth radius 6371 km,
triples converted by `d + m/60 + s/3600`) to the query point within
`radiusKm` (default 10); conversely, every transformed record of the SQL
non-null-GPS prefilter result whose decoded distance is within the radius is
included in the geo-filtered list — that is, in the result whenever the
query carries no `offset`/`limit` (with pagination, in-radius records beyond
the page are cut, which is what the counterexample shows for the claim as
stated). -/
theorem searchImages_geo_radius (db : DB) (q : ImageSearchQuery) (loc : NearLocation)
    (record : ImageRecord) :
    (record ∈ searchBody { q with nearLocation := some loc } db →
      ∃ la lo, record.gpsLatitude = some la ∧ record.gpsLongitude = some lo ∧
        haversineKm ((loc.latitude : ℚ) : ℝ) ((loc.longitude : ℚ) : ℝ)
          ((gpsArrayToDecimal la : ℚ) : ℝ) ((gpsArrayToDecimal lo : ℚ) : ℝ)
          ≤ ((loc.radiusKm.getD 10 : ℚ) : ℝ)) ∧
    (record ∈ (sqlFetchRows { q with nearLocation := some loc } db).map transformRecord →
      (∃ la lo, record.gpsLatitude = some la ∧ record.gpsLongitude = some lo ∧
        haversineKm ((loc.latitude : ℚ) : ℝ) ((loc.longitude : ℚ) : ℝ)
          ((gpsArrayToDecimal la : ℚ) : ℝ) ((gpsArrayToDecimal lo : ℚ) : ℝ)
          ≤ ((loc.radiusKm.getD 10 : ℚ) : ℝ)) →
      record ∈ searchBody { q with nearLocation := some loc, offset := none, limit := none } db) := by
  constructor
  · intro h
    unfold searchBody at h
    have h2 := mem_applyOffset (mem_applyLimit h)
    have h3 : record ∈ List.filter
        (nearFilter loc.latitude loc.longitude (loc.radiusKm.getD 10))
        ((sqlFetchRows { q with nearLocation := some loc } db).map transformRecord) := h2
    exact (nearFilter_eq_true_iff loc.latitude loc.longitude (loc.radiusKm.getD 10)
      record).mp (List.mem_filter.mp h3).2
  · intro hbase hdist
    unfold searchBody
    show record ∈ List.filter
        (nearFilter loc.latitude loc.longitude (loc.radiusKm.getD 10))
        ((sqlFetchRows { q with nearLocation := some loc, offset := none, limit := none }
          db).map transformRecord)
    apply List.mem_filter.mpr
    refine ⟨hbase, ?_⟩
    exact (nearFilter_eq_true_iff loc.latitude loc.longitude (loc.radiusKm.getD 10)
      record).mpr hdist

/-- A GPS-tagged row at the origin with capture time 10 (C4 scenario). -/
def rowC4a : ImageRecordRaw :=
  { id := 1, path := "a", filename := "a", fileSize := 1, mimeType := "image/jpeg",
    lastModified := 0, dateTimeOriginal := some 10,
    gpsLatitude := some (serializeGPS (0, 0, 0)), gpsLongitude := some (serializeGPS (0, 0, 0)),
    gpsAltitude := none, metadata := {}, createdAt := 0, updatedAt := 0 }

/-- A second GPS-tagged row at the origin with capture time 5 (C4 scenario). -/
def rowC4b : ImageRecordRaw :=
  { id := 2, path := "b", filename := "b", fileSize := 1, mimeType := "image/jpeg",
    lastModified := 0, dateTimeOriginal := some 5,
    gpsLatitude := some (serializeGPS (0, 0, 0)), gpsLongitude := some (serializeGPS (0, 0, 0)),
    gpsAltitude := none, metadata := {}, createdAt := 0, updatedAt := 0 }

/-- The origin query point with a 10 km radius (C4 scenario). -/
def locC4 : NearLocation := ⟨0, 0, some 10⟩

/-- A `nearLocation` query with `limit = 1` (C4 counterexample query). -/
def qC4 : ImageSearchQuery := { nearLocation := some locC4, limit := some 1 }

/-- Two origin rows in the table (C4 counterexample database). -/
def dbC4 : DB := ⟨[rowC4a, rowC4b], 3, 0⟩

/-- One origin row in the table (C4 witness database). -/
def dbC4w : DB := ⟨[rowC4a], 2, 0⟩

/-- The decoded origin triple is at Haversine distance 0 from the origin
query point, within the 10 km radius. -/
theorem originDistance_le :
    haversineKm ((0 : ℚ) : ℝ) ((0 : ℚ) : ℝ) ((gpsArrayToDecimal (0, 0, 0) : ℚ) : ℝ)
      ((gpsArrayToDecimal (0, 0, 0) : ℚ) : ℝ) ≤ ((10 : ℚ) : ℝ) := by
  have h : gpsArrayToDecimal (0, 0, 0) = 0 := by norm_num [gpsArrayToDecimal]
  rw [h]
  push_cast
  rw [haversineKm_same_point]
  norm_num

/-- Evaluating `searchImages` at the C4 counterexample input: the geo filter
keeps both origin rows, but `limit = 1` cuts the result to the single most
recent one. -/
theorem searchBodyC4_eval : searchBody qC4 dbC4 = [transformRecord rowC4a] := by
  have hsql : sqlFetchRows qC4 dbC4 = [rowC4a, rowC4b] := by decide
  have hfa : nearFilter locC4.latitude locC4.longitude (locC4.radiusKm.getD 10)
      (transformRecord rowC4a) = true :=
    (nearFilter_eq_true_iff _ _ _ _).mpr ⟨(0, 0, 0), (0, 0, 0), rfl, rfl, originDistance_le⟩
  have hfb : nearFilter locC4.latitude locC4.longitude (locC4.radiusKm.getD 10)
      (transformRecord rowC4b) = true :=
    (nearFilter_eq_true_iff _ _ _ _).mpr ⟨(0, 0, 0), (0, 0, 0), rfl, rfl, originDistance_le⟩
  have hnl : qC4.nearLocation = some locC4 := rfl
  have hlim : qC4.limit = some 1 := rfl
  have hoffq : qC4.offset = none := rfl
  unfold searchBody
  rw [hsql, hnl, hlim, hoffq]
  simp only [List.map_cons, List.map_nil, applyNearFilter]
  simp [applyOffset, applyLimit, hfa, hfb]

/-- C4 counterexample: in the database `dbC4`, row `b` passes the SQL
non-null-GPS prefilter and lies within the query radius (distance 0 ≤ 10),
yet with `limit = 1` it is absent from the `searchImages` result, refuting
the claim that every in-radius prefiltered record is included for every
`nearLocation` query. -/
theorem searchImages_geo_radius_counterexample :
    rowC4b ∈ dbC4.images ∧
    rowMatchesQuery qC4 rowC4b = true ∧
    (∃ la lo, (transformRecord rowC4b).gpsLatitude = some la ∧
      (transformRecord rowC4b).gpsLongitude = some lo ∧
      haversineKm ((locC4.latitude : ℚ) : ℝ) ((locC4.longitude : ℚ) : ℝ)
        ((gpsArrayToDecimal la : ℚ) : ℝ) ((gpsArrayToDecimal lo : ℚ) : ℝ)
        ≤ ((locC4.radiusKm.getD 10 : ℚ) : ℝ)) ∧
    searchBody qC4 dbC4 = [transformRecord rowC4a] ∧
    transformRecord rowC4b ∉ searchBody qC4 dbC4 := by
  refine ⟨by decide, by decide,
    ⟨(0, 0, 0), (0, 0, 0), rfl, rfl, originDistance_le⟩, searchBodyC4_eval, ?_⟩
  rw [searchBodyC4_eval]
  decide

/-- C4 witness: applying the geo-filter theorem at a concrete origin row,
origin query and no pagination — the row is returned and its distance to
the query point is within the radius. -/
theorem searchImages_geo_radius_witness :
    transformRecord rowC4a ∈
      searchBody { nearLocation := some locC4, offset := none, limit := none } dbC4w ∧
    ∃ la lo, (transformRecord rowC4a).gpsLatitude = some la ∧
      (transformRecord rowC4a).gpsLongitude = some lo ∧
      haversineKm ((locC4.latitude : ℚ) : ℝ) ((locC4.longitude : ℚ) : ℝ)
        ((gpsArrayToDecimal la : ℚ) : ℝ) ((gpsArrayToDecimal lo : ℚ) : ℝ)
        ≤ ((locC4.radiusKm.getD 10 : ℚ) : ℝ) := by
  have h := searchImages_geo_radius dbC4w {} locC4 (transformRecord rowC4a)
  have hbase : transformRecord rowC4a ∈
      (sqlFetchRows { ({} : ImageSearchQuery) with nearLocation := some locC4 } dbC4w).map
        transformRecord := by decide
  have hdist : ∃ la lo, (transformRecord rowC4a).gpsLatitude = some la ∧
      (transformRecord rowC4a).gpsLongitude = some lo ∧
      haversineKm ((locC4.latitude : ℚ) : ℝ) ((locC4.longitude : ℚ) : ℝ)
        ((gpsArrayToDecimal la : ℚ) : ℝ) ((gpsArrayToDecimal lo : ℚ) : ℝ)
        ≤ ((locC4.radiusKm.getD 10 : ℚ) : ℝ) :=
    ⟨(0, 0, 0), (0, 0, 0), rfl, rfl, originDistance_le⟩
  have hmem := h.2 hbase hdist
  exact ⟨hmem, h.1 hmem⟩
